import Mathlib

/-!
Verification of the `epd4in2` Waveshare e-paper driver (`src/epd4in2/mod.rs`).

The driver is embedded shallowly: every driver operation is a pure Lean
function returning the sequence of bus events (commands, data transactions,
resets, delays, busy-waits) it issues, together with the updated driver
state where the source mutates one.  Machine integers (`u32`, `u8`) are
`Nat`s reduced modulo `2^32` / `2^8` at the points where the source performs
casts or can wrap.

The support modules of the crate (`interface.rs`, `color.rs`, `traits.rs`,
the command catalog and the LUT byte tables) are not part of the sources
under inspection; they are modelled from the specification where noted.
-/

namespace Epd4in2

/-- `2^32`, the modulus of Rust `u32` arithmetic. -/
def U32 : Nat := 4294967296

@[simp] theorem U32_eq : U32 = 4294967296 := rfl

/-- Interpret a `Nat` as the `u32` value it denotes. -/
def u32 (n : Nat) : Nat := n % U32

/-- Wrapping `u32` subtraction of one (Rust `n - 1` on `u32`, release mode). -/
def u32sub1 (n : Nat) : Nat := (n % U32 + (U32 - 1)) % U32

/-- Rust `as u8` cast. -/
def toU8 (n : Nat) : Nat := n % 256

/-- Modelled from the spec: `Color` (§3, `color.rs` is not under `src/`):
two-valued, byte value all-ones for White and all-zeros for Black. -/
inductive Color
  | Black
  | White
deriving DecidableEq, Repr

/-- Modelled from the spec: the canonical byte value of a `Color` (§3). -/
def Color.get_byte_value : Color → Nat
  | .Black => 0x00
  | .White => 0xFF

/-- Modelled from the spec: `RefreshLUT` (§3, `traits.rs` is not under
`src/`): selects the full or the quick LUT bundle. -/
inductive RefreshLUT
  | FULL
  | QUICK
deriving DecidableEq, Repr

/-- The command catalog (§4.B; `command.rs` is not under `src/`).  The
commands are abstract opcodes here: no claim depends on the opcode bytes,
only on which command a transaction carries. -/
inductive Command
  | PANEL_SETTING
  | POWER_SETTING
  | POWER_OFF
  | POWER_ON
  | BOOSTER_SOFT_START
  | DEEP_SLEEP
  | DATA_START_TRANSMISSION_1
  | DATA_START_TRANSMISSION_2
  | DISPLAY_REFRESH
  | PARTIAL_IN
  | PARTIAL_OUT
  | PARTIAL_WINDOW
  | RESOLUTION_SETTING
  | VCM_DC_SETTING
  | VCOM_AND_DATA_INTERVAL_SETTING
  | PLL_CONTROL
  | LUT_FOR_VCOM
  | LUT_WHITE_TO_WHITE
  | LUT_BLACK_TO_WHITE
  | LUT_WHITE_TO_BLACK
  | LUT_BLACK_TO_BLACK
deriving DecidableEq, Repr

/-- One observable bus event of the host adapter. -/
inductive Event
  | reset
  | delayMs (ms : Nat)
  | cmd (c : Command)
  | data (bytes : List Nat)
  | waitUntilIdle
deriving DecidableEq, Repr

/-- Modelled from the spec: the driver-level error kinds of §7 (`Geometry`,
`State`); the `Io` kinds cannot arise in this embedding because the SPI
writer and the pins of the mock host never fail. -/
inductive DriverError
  | Geometry
  | State
deriving DecidableEq, Repr

/-- Modelled from the spec: the Host I/O Adapter (§4.A, `interface.rs` is
not under `src/`).  `cmd` issues one command byte. -/
def DI.cmd (c : Command) : List Event := [.cmd c]

/-- Modelled from the spec: `data` writes the bytes as a single SPI data
transaction (§4.A). -/
def DI.data (bytes : List Nat) : List Event := [.data bytes]

/-- Modelled from the spec: `cmd_with_data` is `cmd` then `data` (§4.A). -/
def DI.cmd_with_data (c : Command) (bytes : List Nat) : List Event :=
  DI.cmd c ++ DI.data bytes

/-- Modelled from the spec: `data_x_times` repeats one byte `n` times
(§4.A). -/
def DI.data_x_times (b n : Nat) : List Event := [.data (List.replicate n b)]

/-- Modelled from the spec: the pin-reset sequence (§4.A). -/
def DI.reset : List Event := [.reset]

/-- Modelled from the spec: busy-poll until idle (§4.A). -/
def DI.wait_until_idle : List Event := [.waitUntilIdle]

/-- `pub const WIDTH: u32 = 400;` -/
def WIDTH : Nat := 400

/-- `pub const HEIGHT: u32 = 300;` -/
def HEIGHT : Nat := 300

/-- `pub const DEFAULT_BACKGROUND_COLOR: Color = Color::White;` -/
def DEFAULT_BACKGROUND_COLOR : Color := Color.White

/-- The mutable state of `EPD4in2`: its background `color` and its stored
`refresh` LUT choice (the `di` field carries no driver-visible state in the
embedding; pins and SPI are the event trace). -/
structure EPD4in2 where
  color : Color
  refresh : RefreshLUT
deriving DecidableEq, Repr

/-- The LUT byte tables of `constants.rs` (not under `src/`; the spec treats
the LUT byte sequences as panel data, §1).  Kept abstract as a bundle of
byte lists: no claim depends on their contents. -/
structure LutData where
  lut_vcom0 : List Nat
  lut_ww : List Nat
  lut_bw : List Nat
  lut_wb : List Nat
  lut_bb : List Nat
  lut_vcom0_quick : List Nat
  lut_ww_quick : List Nat
  lut_bw_quick : List Nat
  lut_wb_quick : List Nat
  lut_bb_quick : List Nat

/-- `EPD4in2::send_resolution`: RESOLUTION_SETTING then the four bytes
`w >> 8`, `w`, `h >> 8`, `h` (each `as u8`). -/
def send_resolution : List Event :=
  DI.cmd .RESOLUTION_SETTING
    ++ DI.data [toU8 (WIDTH >>> 8)]
    ++ DI.data [toU8 WIDTH]
    ++ DI.data [toU8 (HEIGHT >>> 8)]
    ++ DI.data [toU8 HEIGHT]

/-- `EPD4in2::set_lut_helper`: the five LUT tables in order VCOM,
white-to-white, black-to-white, white-to-black, black-to-black, then a
busy-wait. -/
def set_lut_helper (lut_vcom lut_ww lut_bw lut_wb lut_bb : List Nat) :
    List Event :=
  DI.cmd_with_data .LUT_FOR_VCOM lut_vcom
    ++ DI.cmd_with_data .LUT_WHITE_TO_WHITE lut_ww
    ++ DI.cmd_with_data .LUT_BLACK_TO_WHITE lut_bw
    ++ DI.cmd_with_data .LUT_WHITE_TO_BLACK lut_wb
    ++ DI.cmd_with_data .LUT_BLACK_TO_BLACK lut_bb
    ++ DI.wait_until_idle

/-- `EPD4in2::set_lut`: store the refresh rate when one is given, then
program the bundle selected by the (resulting) stored refresh rate. -/
def set_lut (L : LutData) (s : EPD4in2) (refresh_rate : Option RefreshLUT) :
    Except DriverError (EPD4in2 × List Event) :=
  let s :=
    match refresh_rate with
    | some refresh_lut => { s with refresh := refresh_lut }
    | none => s
  match s.refresh with
  | .FULL =>
      .ok (s, set_lut_helper L.lut_vcom0 L.lut_ww L.lut_bw L.lut_wb L.lut_bb)
  | .QUICK =>
      .ok (s, set_lut_helper L.lut_vcom0_quick L.lut_ww_quick L.lut_bw_quick
        L.lut_wb_quick L.lut_bb_quick)

/-- `EPD4in2::init`: reset, POWER_SETTING, BOOSTER_SOFT_START, POWER_ON +
5 ms delay + busy-wait, PANEL_SETTING, PLL_CONTROL, `set_lut(None)`,
busy-wait. -/
def init (L : LutData) (s : EPD4in2) :
    Except DriverError (EPD4in2 × List Event) :=
  match set_lut L s none with
  | .ok (s2, lutEvents) =>
      .ok (s2,
        DI.reset
          ++ DI.cmd_with_data .POWER_SETTING [0x03, 0x00, 0x2b, 0x2b, 0xff]
          ++ DI.cmd_with_data .BOOSTER_SOFT_START [0x17, 0x17, 0x17]
          ++ DI.cmd .POWER_ON ++ [.delayMs 5] ++ DI.wait_until_idle
          ++ DI.cmd_with_data .PANEL_SETTING [0x3F]
          ++ DI.cmd_with_data .PLL_CONTROL [0x3A]
          ++ lutEvents
          ++ DI.wait_until_idle)
  | .error e => .error e

/-- `EPD4in2::new`: build the state with the default background color and
the FULL refresh LUT, then run `init`. -/
def new (L : LutData) : Except DriverError (EPD4in2 × List Event) :=
  init L { color := DEFAULT_BACKGROUND_COLOR, refresh := RefreshLUT.FULL }

/-- `EPD4in2::wake_up`: re-run `init`. -/
def wake_up (L : LutData) (s : EPD4in2) :
    Except DriverError (EPD4in2 × List Event) :=
  init L s

/-- `EPD4in2::sleep`: border floating, VCM_DC_SETTING, PANEL_SETTING,
POWER_SETTING plus four separate `0x00` data writes, POWER_OFF, busy-wait,
DEEP_SLEEP `0xA5`, busy-wait.  The source mutates no field of `self`. -/
def sleep (_s : EPD4in2) : Except DriverError (List Event) :=
  .ok (DI.cmd_with_data .VCOM_AND_DATA_INTERVAL_SETTING [0x17]
    ++ DI.cmd .VCM_DC_SETTING
    ++ DI.cmd .PANEL_SETTING
    ++ DI.cmd .POWER_SETTING
    ++ DI.data [0x00] ++ DI.data [0x00] ++ DI.data [0x00] ++ DI.data [0x00]
    ++ DI.cmd .POWER_OFF
    ++ DI.wait_until_idle
    ++ DI.cmd_with_data .DEEP_SLEEP [0xA5]
    ++ DI.wait_until_idle)

/-- `EPD4in2::update_frame`. -/
def update_frame (s : EPD4in2) (buffer : List Nat) :
    Except DriverError (List Event) :=
  let color_value := s.color.get_byte_value
  .ok (send_resolution
    ++ DI.cmd_with_data .VCM_DC_SETTING [0x12]
    ++ DI.cmd_with_data .VCOM_AND_DATA_INTERVAL_SETTING [0x97]
    ++ DI.cmd .DATA_START_TRANSMISSION_1
    ++ DI.data_x_times color_value (WIDTH / 8 * HEIGHT)
    ++ DI.cmd_with_data .DATA_START_TRANSMISSION_2 buffer
    ++ DI.wait_until_idle)

/-- `EPD4in2::update_partial_frame`.  The source's buffer-length check
`if buffer.len() as u32 != width / 8 * height { ... }` has an empty body
(its error return is commented out), so it has no effect; the window bytes
use `tmp = x & 0xf8` and `tmp = tmp + width - 1` in wrapping `u32`
arithmetic, and the data-start selector `is_dtm1` is hard-coded `false`. -/
def update_partial_frame (_s : EPD4in2) (buffer : List Nat)
    (x y width height : Nat) : Except DriverError (List Event) :=
  let x := u32 x
  let y := u32 y
  let width := u32 width
  let height := u32 height
  let _lenMismatch := buffer.length % U32 != width / 8 * height % U32
  let tmp := Nat.land x 0xf8
  let tmp2 := u32sub1 ((tmp + width) % U32)
  let yend := u32sub1 ((y + height) % U32)
  .ok (DI.cmd .PARTIAL_IN
    ++ DI.cmd .PARTIAL_WINDOW
    ++ DI.data [toU8 (x >>> 8)]
    ++ DI.data [toU8 tmp]
    ++ DI.data [toU8 (tmp2 >>> 8)]
    ++ DI.data [toU8 (Nat.lor tmp2 0x07)]
    ++ DI.data [toU8 (y >>> 8)]
    ++ DI.data [toU8 y]
    ++ DI.data [toU8 (yend >>> 8)]
    ++ DI.data [toU8 yend]
    ++ DI.data [0x01]
    ++ DI.cmd .DATA_START_TRANSMISSION_2
    ++ DI.data buffer
    ++ DI.cmd .PARTIAL_OUT
    ++ DI.wait_until_idle)

/-- `EPD4in2::display_frame`: DISPLAY_REFRESH then busy-wait. -/
def display_frame (_s : EPD4in2) : Except DriverError (List Event) :=
  .ok (DI.cmd .DISPLAY_REFRESH ++ DI.wait_until_idle)

/-- `EPD4in2::clear_frame`. -/
def clear_frame (s : EPD4in2) : Except DriverError (List Event) :=
  let color_value := s.color.get_byte_value
  .ok (send_resolution
    ++ DI.cmd .DATA_START_TRANSMISSION_1
    ++ DI.data_x_times color_value (WIDTH / 8 * HEIGHT)
    ++ DI.cmd .DATA_START_TRANSMISSION_2
    ++ DI.data_x_times color_value (WIDTH / 8 * HEIGHT)
    ++ DI.wait_until_idle)

/-- `EPD4in2::set_background_color`: store the color; no bus events, no
failure (the Rust signature returns no `Result`). -/
def set_background_color (s : EPD4in2) (color : Color) :
    EPD4in2 × List Event :=
  ({ s with color := color }, [])

/-- `EPD4in2::background_color`. -/
def background_color (s : EPD4in2) : Color := s.color

/-- The sequence of command opcodes occurring in an event trace, in
order. -/
def commandsOf (tr : List Event) : List Command :=
  tr.filterMap fun e =>
    match e with
    | .cmd c => some c
    | _ => none

/-- `clear_frame` as the specification words it: the same transaction
sequence as `update_frame`, except that both data-start transmissions are
followed by the background fill and no user buffer is transmitted. -/
def clear_frame_spec (s : EPD4in2) : List Event :=
  let color_value := s.color.get_byte_value
  send_resolution
    ++ DI.cmd_with_data .VCM_DC_SETTING [0x12]
    ++ DI.cmd_with_data .VCOM_AND_DATA_INTERVAL_SETTING [0x97]
    ++ DI.cmd .DATA_START_TRANSMISSION_1
    ++ DI.data_x_times color_value (WIDTH / 8 * HEIGHT)
    ++ DI.cmd .DATA_START_TRANSMISSION_2
    ++ DI.data_x_times color_value (WIDTH / 8 * HEIGHT)
    ++ DI.wait_until_idle

/-- The event sequence `update_frame` issues for background color `c` and
user buffer `buffer`: resolution programming with big-endian 16-bit width
`0x01 0x90` and height `0x01 0x2C`, VCM_DC_SETTING `0x12`,
VCOM_AND_DATA_INTERVAL_SETTING `0x97`, DATA_START_TRANSMISSION_1 followed
by `WIDTH*HEIGHT/8` background bytes, DATA_START_TRANSMISSION_2 followed by
the buffer, busy-wait. -/
def update_frame_events (c : Color) (buffer : List Nat) : List Event :=
  [.cmd .RESOLUTION_SETTING, .data [0x01], .data [0x90], .data [0x01],
   .data [0x2C],
   .cmd .VCM_DC_SETTING, .data [0x12],
   .cmd .VCOM_AND_DATA_INTERVAL_SETTING, .data [0x97],
   .cmd .DATA_START_TRANSMISSION_1,
   .data (List.replicate (WIDTH * HEIGHT / 8) c.get_byte_value),
   .cmd .DATA_START_TRANSMISSION_2, .data buffer,
   .waitUntilIdle]

/-- The event sequence `sleep` issues. -/
def sleep_events : List Event :=
  [.cmd .VCOM_AND_DATA_INTERVAL_SETTING, .data [0x17],
   .cmd .VCM_DC_SETTING, .cmd .PANEL_SETTING,
   .cmd .POWER_SETTING, .data [0x00], .data [0x00], .data [0x00],
   .data [0x00],
   .cmd .POWER_OFF, .waitUntilIdle,
   .cmd .DEEP_SLEEP, .data [0xA5], .waitUntilIdle]

/-- The five-table programming sequence of the LUT bundle selected by a
`RefreshLUT` value. -/
def lut_bundle (L : LutData) : RefreshLUT → List Event
  | .FULL => set_lut_helper L.lut_vcom0 L.lut_ww L.lut_bw L.lut_wb L.lut_bb
  | .QUICK =>
      set_lut_helper L.lut_vcom0_quick L.lut_ww_quick L.lut_bw_quick
        L.lut_wb_quick L.lut_bb_quick

deriving instance DecidableEq for Except

/- ### Arithmetic helper lemmas -/

theorem mod_eight_land (m : Nat) : m % 8 = Nat.land m 7 := by
  simpa using (Nat.and_pow_two_sub_one_eq_mod m 3).symm

theorem land_f8_low3 (n : Nat) : Nat.land n 248 % 8 = 0 := by
  rw [mod_eight_land]
  show n &&& 248 &&& 7 = 0
  rw [Nat.and_assoc]
  have h0 : (248 : Nat) &&& 7 = 0 := rfl
  rw [h0, Nat.and_zero]

theorem lor_seven_low3 (m : Nat) : Nat.lor m 7 % 8 = 7 := by
  rw [mod_eight_land]
  show (m ||| 7) &&& 7 = 7
  rw [Nat.and_distrib_right]
  have h7 : (7 : Nat) &&& 7 = 7 := rfl
  rw [h7]
  have hk : m &&& 7 < 8 := by
    simpa using Nat.and_lt_two_pow m (show 7 < 2 ^ 3 by norm_num)
  have hor : ∀ k, k < 8 → k ||| 7 = 7 := by decide
  exact hor _ hk

theorem toU8_mod_eight (n : Nat) : toU8 n % 8 = n % 8 :=
  Nat.mod_mod_of_dvd n (by norm_num)

theorem u32sub1_spec (n : Nat) (h1 : 1 ≤ n) (h2 : n ≤ U32) :
    u32sub1 (n % U32) = n - 1 := by
  rw [U32_eq] at h2
  simp only [u32sub1, U32_eq]
  omega

/- ### Claim theorems -/

/-- C1: the geometry check of `update_partial_frame` is inert in the code.
With a 5-byte buffer and `w = 16`, `h = 4` (so `w/8*h = 8 ≠ 5`), the call
does not return `DriverError.Geometry`: it returns `.ok` and issues the
full partial-update bus sequence, starting with the PARTIAL_IN command
byte.  This exhibits the failing input for the claim, which the source's
own commented-out `return Err("Wrong buffersize")` shows was intended. -/
theorem C1_geometry_check_inert :
    ([0, 0, 0, 0, 0] : List Nat).length ≠ 16 / 8 * 4
    ∧ update_partial_frame ⟨Color.White, RefreshLUT.FULL⟩ [0, 0, 0, 0, 0]
        0 0 16 4
      = .ok [.cmd .PARTIAL_IN, .cmd .PARTIAL_WINDOW, .data [0x00],
          .data [0x00], .data [0x00], .data [0x0F], .data [0x00],
          .data [0x00], .data [0x00], .data [0x03], .data [0x01],
          .cmd .DATA_START_TRANSMISSION_2, .data [0, 0, 0, 0, 0],
          .cmd .PARTIAL_OUT, .waitUntilIdle] :=
  ⟨by decide, rfl⟩

/-- C2 (counterexample): at `(x, y, w, h) = (3, 10, 16, 4)` with an 8-byte
buffer the PARTIAL_WINDOW right-edge low byte is `0x0F`, not the claimed
`0x17`: the source computes the right edge from `(x & 0xF8) + w - 1`, not
from `x + w - 1`.  The claimed trace (differing only in that byte) is
refuted. -/
theorem C2_counterexample :
    update_partial_frame ⟨Color.White, RefreshLUT.FULL⟩
        [1, 2, 3, 4, 5, 6, 7, 8] 3 10 16 4
      ≠ .ok [.cmd .PARTIAL_IN, .cmd .PARTIAL_WINDOW, .data [0x00],
          .data [0x00], .data [0x00], .data [0x17], .data [0x00],
          .data [0x0A], .data [0x00], .data [0x0D], .data [0x01],
          .cmd .DATA_START_TRANSMISSION_2, .data [1, 2, 3, 4, 5, 6, 7, 8],
          .cmd .PARTIAL_OUT, .waitUntilIdle] := by
  decide

/-- C2 (amended): in the absence of `u32` overflow, `update_partial_frame`
emits PARTIAL_IN, then PARTIAL_WINDOW whose nine data bytes encode the left
edge as `x & 0xF8` and the right edge as `(x & 0xF8) + w - 1` (high byte,
then low byte OR-ed with `0x07`), then the `y` range, then `0x01`, then
DATA_START_TRANSMISSION_2 with the buffer, then PARTIAL_OUT; at
`(3, 10, 16, 4)` the nine window bytes are
`0x00 0x00 0x00 0x0F 0x00 0x0A 0x00 0x0D 0x01`. -/
theorem C2_amended_window_bytes (s : EPD4in2) (buf : List Nat)
    (x y w h : Nat) (hx : x < U32) (hy : y < U32) (hw : w < U32)
    (hh : h < U32) (hw1 : 1 ≤ w) (hh1 : 1 ≤ h)
    (hxw : Nat.land x 0xf8 + w ≤ U32) (hyh : y + h ≤ U32) :
    update_partial_frame s buf x y w h
      = .ok [.cmd .PARTIAL_IN, .cmd .PARTIAL_WINDOW,
          .data [toU8 (x >>> 8)],
          .data [toU8 (Nat.land x 0xf8)],
          .data [toU8 ((Nat.land x 0xf8 + w - 1) >>> 8)],
          .data [toU8 (Nat.lor (Nat.land x 0xf8 + w - 1) 0x07)],
          .data [toU8 (y >>> 8)],
          .data [toU8 y],
          .data [toU8 ((y + h - 1) >>> 8)],
          .data [toU8 (y + h - 1)],
          .data [0x01],
          .cmd .DATA_START_TRANSMISSION_2, .data buf,
          .cmd .PARTIAL_OUT, .waitUntilIdle] := by
  have hux : u32 x = x := Nat.mod_eq_of_lt hx
  have huy : u32 y = y := Nat.mod_eq_of_lt hy
  have huw : u32 w = w := Nat.mod_eq_of_lt hw
  have huh : u32 h = h := Nat.mod_eq_of_lt hh
  have ht : u32sub1 ((Nat.land x 0xf8 + w) % U32) = Nat.land x 0xf8 + w - 1 :=
    u32sub1_spec _ (by omega) hxw
  have hy2 : u32sub1 ((y + h) % U32) = y + h - 1 :=
    u32sub1_spec _ (by omega) hyh
  rw [show update_partial_frame s buf x y w h
      = .ok [.cmd .PARTIAL_IN, .cmd .PARTIAL_WINDOW,
          .data [toU8 (u32 x >>> 8)],
          .data [toU8 (Nat.land (u32 x) 0xf8)],
          .data [toU8 (u32sub1 ((Nat.land (u32 x) 0xf8 + u32 w) % U32) >>> 8)],
          .data [toU8 (Nat.lor (u32sub1 ((Nat.land (u32 x) 0xf8 + u32 w) % U32)) 0x07)],
          .data [toU8 (u32 y >>> 8)],
          .data [toU8 (u32 y)],
          .data [toU8 (u32sub1 ((u32 y + u32 h) % U32) >>> 8)],
          .data [toU8 (u32sub1 ((u32 y + u32 h) % U32))],
          .data [0x01],
          .cmd .DATA_START_TRANSMISSION_2, .data buf,
          .cmd .PARTIAL_OUT, .waitUntilIdle] from rfl,
    hux, huy, huw, huh, ht, hy2]

/-- C2 (witness): the amended theorem applied at `(3, 10, 16, 4)` with an
8-byte buffer yields the corrected S3 trace, with right-edge low byte
`0x0F`. -/
theorem C2_amended_window_bytes_witness :
    update_partial_frame ⟨Color.White, RefreshLUT.FULL⟩
        [1, 2, 3, 4, 5, 6, 7, 8] 3 10 16 4
      = .ok [.cmd .PARTIAL_IN, .cmd .PARTIAL_WINDOW, .data [0x00],
          .data [0x00], .data [0x00], .data [0x0F], .data [0x00],
          .data [0x0A], .data [0x00], .data [0x0D], .data [0x01],
          .cmd .DATA_START_TRANSMISSION_2, .data [1, 2, 3, 4, 5, 6, 7, 8],
          .cmd .PARTIAL_OUT, .waitUntilIdle] := by
  rw [C2_amended_window_bytes ⟨Color.White, RefreshLUT.FULL⟩
    [1, 2, 3, 4, 5, 6, 7, 8] 3 10 16 4 (by decide) (by decide) (by decide)
    (by decide) (by decide) (by decide) (by decide) (by decide)]
  rfl

/-- C3 (counterexample): `clear_frame` does not emit the same transaction
sequence as `update_frame` with the user buffer replaced by fill: it omits
the VCM_DC_SETTING and VCOM_AND_DATA_INTERVAL_SETTING transactions, so the
sequence the claim describes (`clear_frame_spec`) differs from the emitted
one. -/
theorem C3_counterexample :
    clear_frame ⟨Color.White, RefreshLUT.FULL⟩
      ≠ .ok (clear_frame_spec ⟨Color.White, RefreshLUT.FULL⟩) := by
  decide

/-- C3 (amended): `clear_frame` emits the `update_frame` sequence with the
user buffer replaced by the background fill, minus the four events of the
VCM_DC_SETTING and VCOM_AND_DATA_INTERVAL_SETTING transactions (positions
5-8 of the `update_frame` trace). -/
theorem C3_amended_clear_vs_update (s : EPD4in2) :
    ∃ trc tru, clear_frame s = .ok trc
      ∧ update_frame s
          (List.replicate (WIDTH / 8 * HEIGHT) s.color.get_byte_value)
          = .ok tru
      ∧ trc = tru.take 5 ++ tru.drop 9 :=
  ⟨_, _, rfl, rfl, rfl⟩

/-- C4 (counterexample): `sleep` completes successfully on the default
state, yet a subsequent `display_frame` (an operation other than `wake_up`;
`sleep` mutates no driver state) does not return `DriverError.State`: it
returns `.ok` and issues the DISPLAY_REFRESH command. -/
theorem C4_counterexample :
    (∃ tr, sleep ⟨Color.White, RefreshLUT.FULL⟩ = .ok tr)
    ∧ display_frame ⟨Color.White, RefreshLUT.FULL⟩
        = .ok [.cmd .DISPLAY_REFRESH, .waitUntilIdle]
    ∧ ([Event.cmd .DISPLAY_REFRESH, .waitUntilIdle] : List Event) ≠ [] :=
  ⟨⟨_, rfl⟩, rfl, by decide⟩

/-- C4 (amended): the driver stores no sleeping flag (`sleep` writes no
field of the state), so after a successful `sleep` every operation other
than `wake_up` proceeds exactly as before: it returns `.ok` — never
`DriverError.State` — and issues its normal bus traffic (the stated event
counts). -/
theorem C4_amended_no_state_tracking (s : EPD4in2) (buf : List Nat)
    (x y w h : Nat) (L : LutData) (opt : Option RefreshLUT) :
    (∃ tr, sleep s = .ok tr ∧ tr.length = 14)
    ∧ (∃ tr, update_frame s buf = .ok tr ∧ tr.length = 14)
    ∧ (∃ tr, update_partial_frame s buf x y w h = .ok tr ∧ tr.length = 15)
    ∧ (∃ tr, display_frame s = .ok tr ∧ tr.length = 2)
    ∧ (∃ tr, clear_frame s = .ok tr ∧ tr.length = 10)
    ∧ (∃ s2 tr, set_lut L s opt = .ok (s2, tr) ∧ tr.length = 11) := by
  obtain ⟨c, r⟩ := s
  refine ⟨⟨_, rfl, rfl⟩, ⟨_, rfl, rfl⟩, ⟨_, rfl, rfl⟩, ⟨_, rfl, rfl⟩,
    ⟨_, rfl, rfl⟩, ?_⟩
  cases opt with
  | none => cases r <;> exact ⟨_, _, rfl, rfl⟩
  | some r2 => cases r2 <;> exact ⟨_, _, rfl, rfl⟩

/-- C5: for every state and buffer, `update_frame` emits exactly the
`update_frame_events` sequence — RESOLUTION_SETTING with big-endian width
`0x01 0x90` and height `0x01 0x2C`, VCM_DC_SETTING, VCOM_AND_DATA_INTERVAL_SETTING,
DATA_START_TRANSMISSION_1 + `WIDTH*HEIGHT/8` background bytes,
DATA_START_TRANSMISSION_2 + the buffer, busy-wait — and that sequence
contains no DISPLAY_REFRESH. -/
theorem C5_update_frame_trace (s : EPD4in2) (buffer : List Nat) :
    update_frame s buffer = .ok (update_frame_events s.color buffer)
    ∧ Event.cmd .DISPLAY_REFRESH ∉ update_frame_events s.color buffer := by
  refine ⟨rfl, ?_⟩
  simp [update_frame_events]

/-- C6: every `sleep` call succeeds and emits exactly `sleep_events`:
VCOM_AND_DATA_INTERVAL_SETTING `0x17`, VCM_DC_SETTING, PANEL_SETTING,
POWER_SETTING + four `0x00` bytes, POWER_OFF, busy-wait, DEEP_SLEEP `0xA5`;
the command opcodes end with POWER_OFF then DEEP_SLEEP, and between the
POWER_OFF command and the DEEP_SLEEP command stands a busy-wait. -/
theorem C6_sleep_trace (s : EPD4in2) :
    sleep s = .ok sleep_events
    ∧ commandsOf sleep_events
        = [.VCOM_AND_DATA_INTERVAL_SETTING, .VCM_DC_SETTING, .PANEL_SETTING,
           .POWER_SETTING, .POWER_OFF, .DEEP_SLEEP]
    ∧ sleep_events.drop 9
        = [.cmd .POWER_OFF, .waitUntilIdle, .cmd .DEEP_SLEEP, .data [0xA5],
           .waitUntilIdle] :=
  ⟨rfl, rfl, rfl⟩

/-- C7: `new` returns the state with the default background color (White)
and the FULL refresh LUT, and emits exactly: hardware reset, POWER_SETTING,
BOOSTER_SOFT_START, POWER_ON + 5 ms delay + busy-wait, PANEL_SETTING,
PLL_CONTROL, the five tables of the FULL LUT bundle, busy-wait (one from
the LUT helper, one closing `init`). -/
theorem C7_new_state_and_trace (L : LutData) :
    new L = .ok ({ color := Color.White, refresh := RefreshLUT.FULL },
      [.reset,
       .cmd .POWER_SETTING, .data [0x03, 0x00, 0x2b, 0x2b, 0xff],
       .cmd .BOOSTER_SOFT_START, .data [0x17, 0x17, 0x17],
       .cmd .POWER_ON, .delayMs 5, .waitUntilIdle,
       .cmd .PANEL_SETTING, .data [0x3F],
       .cmd .PLL_CONTROL, .data [0x3A],
       .cmd .LUT_FOR_VCOM, .data L.lut_vcom0,
       .cmd .LUT_WHITE_TO_WHITE, .data L.lut_ww,
       .cmd .LUT_BLACK_TO_WHITE, .data L.lut_bw,
       .cmd .LUT_WHITE_TO_BLACK, .data L.lut_wb,
       .cmd .LUT_BLACK_TO_BLACK, .data L.lut_bb,
       .waitUntilIdle, .waitUntilIdle]) :=
  rfl

/-- C8: `set_lut opt` stores the refresh rate carried by `opt` when present
(leaving it unchanged when `opt` is `none`), keeps the background color,
and programs the five LUT tables of the bundle selected by the resulting
stored refresh rate, in the order VCOM, white-to-white, black-to-white,
white-to-black, black-to-black. -/
theorem C8_set_lut (L : LutData) (s : EPD4in2) (opt : Option RefreshLUT) :
    set_lut L s opt
      = .ok ({ s with refresh := opt.getD s.refresh },
          lut_bundle L (opt.getD s.refresh))
    ∧ commandsOf (lut_bundle L (opt.getD s.refresh))
        = [.LUT_FOR_VCOM, .LUT_WHITE_TO_WHITE, .LUT_BLACK_TO_WHITE,
           .LUT_WHITE_TO_BLACK, .LUT_BLACK_TO_BLACK] := by
  obtain ⟨c, r⟩ := s
  cases opt with
  | none => cases r <;> exact ⟨rfl, rfl⟩
  | some r2 => cases r2 <;> exact ⟨rfl, rfl⟩

/-- C9: every successful `update_partial_frame` call emits a window whose
left-edge low byte (the fourth event of the trace) has low 3 bits zero and
whose right-edge low byte (the sixth event) has low 3 bits one. -/
theorem C9_partial_alignment (s : EPD4in2) (buf : List Nat) (x y w h : Nat)
    (tr : List Event)
    (htr : update_partial_frame s buf x y w h = .ok tr) :
    ∃ lb rb, tr[3]? = some (.data [lb]) ∧ tr[5]? = some (.data [rb])
      ∧ lb % 8 = 0 ∧ rb % 8 = 7 := by
  rw [show update_partial_frame s buf x y w h
      = .ok [.cmd .PARTIAL_IN, .cmd .PARTIAL_WINDOW,
          .data [toU8 (u32 x >>> 8)],
          .data [toU8 (Nat.land (u32 x) 0xf8)],
          .data [toU8 (u32sub1 ((Nat.land (u32 x) 0xf8 + u32 w) % U32) >>> 8)],
          .data [toU8 (Nat.lor (u32sub1 ((Nat.land (u32 x) 0xf8 + u32 w) % U32)) 0x07)],
          .data [toU8 (u32 y >>> 8)],
          .data [toU8 (u32 y)],
          .data [toU8 (u32sub1 ((u32 y + u32 h) % U32) >>> 8)],
          .data [toU8 (u32sub1 ((u32 y + u32 h) % U32))],
          .data [0x01],
          .cmd .DATA_START_TRANSMISSION_2, .data buf,
          .cmd .PARTIAL_OUT, .waitUntilIdle] from rfl] at htr
  injection htr with h
  subst h
  refine ⟨toU8 (Nat.land (u32 x) 0xf8),
    toU8 (Nat.lor (u32sub1 ((Nat.land (u32 x) 0xf8 + u32 w) % U32)) 0x07),
    rfl, rfl, ?_, ?_⟩
  · rw [toU8_mod_eight]
    exact land_f8_low3 (u32 x)
  · rw [toU8_mod_eight]
    exact lor_seven_low3 _

/-- C9 (witness): the alignment theorem applied at `(3, 10, 16, 4)` with an
8-byte buffer and the concrete emitted trace. -/
theorem C9_partial_alignment_witness :
    ∃ lb rb,
      ([.cmd .PARTIAL_IN, .cmd .PARTIAL_WINDOW, .data [0x00], .data [0x00],
        .data [0x00], .data [0x0F], .data [0x00], .data [0x0A], .data [0x00],
        .data [0x0D], .data [0x01], .cmd .DATA_START_TRANSMISSION_2,
        .data [1, 2, 3, 4, 5, 6, 7, 8], .cmd .PARTIAL_OUT,
        .waitUntilIdle] : List Event)[3]? = some (.data [lb])
      ∧ ([.cmd .PARTIAL_IN, .cmd .PARTIAL_WINDOW, .data [0x00], .data [0x00],
          .data [0x00], .data [0x0F], .data [0x00], .data [0x0A],
          .data [0x00], .data [0x0D], .data [0x01],
          .cmd .DATA_START_TRANSMISSION_2, .data [1, 2, 3, 4, 5, 6, 7, 8],
          .cmd .PARTIAL_OUT, .waitUntilIdle] : List Event)[5]?
          = some (.data [rb])
      ∧ lb % 8 = 0 ∧ rb % 8 = 7 :=
  C9_partial_alignment ⟨Color.White, RefreshLUT.FULL⟩ [1, 2, 3, 4, 5, 6, 7, 8]
    3 10 16 4 _ rfl

/-- C10: `set_background_color c` returns no bus events and cannot fail
(its type carries no error), changes only the stored color (the stored
refresh LUT is untouched), a subsequent `background_color` returns `c`, and
subsequent `update_frame` and `clear_frame` calls fill
DATA_START_TRANSMISSION_1/2 with `c`'s byte value. -/
theorem C10_set_background_color (s : EPD4in2) (c : Color) (buf : List Nat) :
    set_background_color s c = ({ s with color := c }, [])
    ∧ (set_background_color s c).1.refresh = s.refresh
    ∧ background_color (set_background_color s c).1 = c
    ∧ update_frame (set_background_color s c).1 buf
        = .ok (update_frame_events c buf)
    ∧ Event.data (List.replicate (WIDTH * HEIGHT / 8) c.get_byte_value)
        ∈ update_frame_events c buf
    ∧ (∃ tr, clear_frame (set_background_color s c).1 = .ok tr
        ∧ Event.data (List.replicate (WIDTH * HEIGHT / 8) c.get_byte_value)
            ∈ tr) := by
  refine ⟨rfl, rfl, rfl, rfl, ?_, ⟨_, rfl, ?_⟩⟩
  · simp [update_frame_events]
  · have hfill : WIDTH * HEIGHT / 8 = WIDTH / 8 * HEIGHT := rfl
    rw [hfill]
    exact .tail _ (.tail _ (.tail _ (.tail _ (.tail _ (.tail _ (.head _))))))

end Epd4in2
